/-
  Verification of the workspace isolation / RBAC core of the viz-dashboard
  backend (src/backend/app/core and the workspace routes), as a shallow
  embedding in Lean 4.

  The database session is modelled as explicit lists of rows; `.first()`
  queries become `List.find?`.  HTTP exceptions become an explicit error
  type carrying the status code.  JWT sign/verify is opaque per the spec,
  so an invitation token is modelled as its (trusted) payload.
-/
import Mathlib

namespace VizDashboard

/-! ## Data model (src/backend/app/models/sqlite_models.py, relevant columns) -/

structure Workspace where
  id : Nat
  name : String
  slug : String
  created_by : Nat
deriving Repr, DecidableEq

structure WorkspaceMember where
  workspace_id : Nat
  user_id : Nat
  role : String
  invited_by : Nat
  joined_at : Nat
deriving Repr, DecidableEq

structure Connection where
  id : Nat
  workspace_id : Nat
  created_by : Nat
deriving Repr, DecidableEq

structure ConnectionPermission where
  connection_id : Nat
  user_id : Nat
  permission_level : String
  granted_by : Nat
deriving Repr, DecidableEq

/-- The database session: one list per table used by the verified core. -/
structure DB where
  workspaces : List Workspace
  members : List WorkspaceMember
  connections : List Connection
  connection_permissions : List ConnectionPermission
deriving Repr, DecidableEq

/-! ## Role model (src/backend/app/core/permissions.py) -/

/-- `ROLE_HIERARCHY.get(role, 0)`: admin 3, editor 2, viewer 1, default 0. -/
def ROLE_HIERARCHY (role : String) : Nat :=
  if role = "admin" then 3
  else if role = "editor" then 2
  else if role = "viewer" then 1
  else 0

/-- `get_user_role`: first WorkspaceMember row matching (user_id, workspace_id),
    returning its role, or `none` when the user is not a member. -/
def get_user_role (db : DB) (user_id workspace_id : Nat) : Option String :=
  (db.members.find? fun m =>
    m.user_id == user_id && m.workspace_id == workspace_id).map (·.role)

/-- `check_permission`: member exists and held level ≥ required level. -/
def check_permission (db : DB) (user_id workspace_id : Nat)
    (required_role : String) : Bool :=
  match get_user_role db user_id workspace_id with
  | none => false
  | some user_role => ROLE_HIERARCHY required_role ≤ ROLE_HIERARCHY user_role

/-- `is_workspace_admin` -/
def is_workspace_admin (db : DB) (user_id workspace_id : Nat) : Bool :=
  check_permission db user_id workspace_id "admin"

/-- `ROLE_HIERARCHY.get(actor_role, 0)` where `actor_role` may be `None`. -/
def role_level_opt (role : Option String) : Nat :=
  match role with
  | none => 0
  | some r => ROLE_HIERARCHY r

/-- `can_modify_member_role`: deny self-modification, deny non-admins, deny
    promoting above the actor's own level; allow otherwise. -/
def can_modify_member_role (db : DB) (actor_user_id target_user_id
    workspace_id : Nat) (new_role : String) : Bool :=
  if actor_user_id == target_user_id then false
  else if ¬ is_workspace_admin db actor_user_id workspace_id then false
  else
    let actor_role := get_user_role db actor_user_id workspace_id
    let actor_role_level := role_level_opt actor_role
    let new_role_level := ROLE_HIERARCHY new_role
    if actor_role_level < new_role_level then false
    else true

/-! ## Connection-level permissions (src/backend/app/core/connection_permissions.py) -/

/-- Lookup of a connection row by id (`db.query(Connection).filter(id==...)`). -/
def find_connection (db : DB) (connection_id : Nat) : Option Connection :=
  db.connections.find? fun c => c.id == connection_id

/-- `get_user_connection_permission`: explicit per-connection grant level. -/
def get_user_connection_permission (db : DB) (user_id connection_id : Nat) :
    Option String :=
  (db.connection_permissions.find? fun p =>
    p.connection_id == connection_id && p.user_id == user_id).map
      (·.permission_level)

/-- `permission_hierarchy.get(level, 0)`: owner 3, editor 2, viewer 1. -/
def permission_hierarchy (level : String) : Nat :=
  if level = "owner" then 3
  else if level = "editor" then 2
  else if level = "viewer" then 1
  else 0

/-- `check_connection_access`: creator, else workspace admin, else explicit
    grant at the required level or higher. -/
def check_connection_access (db : DB) (user_id connection_id : Nat)
    (required_permission : String) : Bool :=
  match find_connection db connection_id with
  | none => false
  | some connection =>
    if connection.created_by == user_id then true
    else if get_user_role db user_id connection.workspace_id == some "admin" then
      true
    else
      match get_user_connection_permission db user_id connection_id with
      | none => false
      | some conn_permission =>
        permission_hierarchy required_permission ≤
          permission_hierarchy conn_permission

/-- `can_manage_connection_permissions`: creator, workspace admin, or an
    explicit grant whose level is exactly `owner`. -/
def can_manage_connection_permissions (db : DB) (user_id connection_id : Nat) :
    Bool :=
  match find_connection db connection_id with
  | none => false
  | some connection =>
    if connection.created_by == user_id then true
    else if get_user_role db user_id connection.workspace_id == some "admin" then
      true
    else if get_user_connection_permission db user_id connection_id
        == some "owner" then true
    else false

/-! ## HTTP-level outcomes

Every route-level embedding returns `Except HTTPError α`; `HTTPError`
carries the status code the handler raises. -/

structure HTTPError where
  status : Nat
  detail : String
deriving Repr, DecidableEq

/-- `PermissionChecker.__call__` (permissions.py): 401 when the request has
    no authenticated user or no workspace context, 404 when the permission
    check fails, success otherwise. -/
def permission_checker_call (db : DB) (user : Option Nat)
    (workspace_id : Option Nat) (required_role : String) :
    Except HTTPError Unit :=
  match user, workspace_id with
  | some u, some w =>
    if check_permission db u w required_role then Except.ok ()
    else Except.error ⟨404, "Resource not found"⟩
  | _, _ => Except.error ⟨401, "Not authenticated"⟩

/-- `WorkspaceContextInjector.require_role` (workspace_middleware.py):
    404 for non-members and for members below the required level. -/
def require_role (db : DB) (user_id workspace_id : Nat)
    (required_role : String) : Except HTTPError Unit :=
  match db.members.find? fun m =>
      m.user_id == user_id && m.workspace_id == workspace_id with
  | none => Except.error ⟨404, "Resource not found"⟩
  | some member =>
    if ROLE_HIERARCHY member.role < ROLE_HIERARCHY required_role then
      Except.error ⟨404, "Resource not found"⟩
    else Except.ok ()

/-- `ConnectionPermissionChecker.__call__` (connection_permissions.py):
    raises 403 Forbidden when `check_connection_access` denies. -/
def connection_permission_checker_call (db : DB) (connection_id
    current_user : Nat) (required_permission : String) :
    Except HTTPError Unit :=
  if check_connection_access db current_user connection_id
      required_permission then Except.ok ()
  else Except.error ⟨403,
    "Insufficient permissions. Required: " ++ required_permission⟩

/-! ## Workspace member routes (src/backend/app/api/routes/workspaces.py) -/

/-- Lookup of a workspace row by id. -/
def find_workspace (db : DB) (workspace_id : Nat) : Option Workspace :=
  db.workspaces.find? fun w => w.id == workspace_id

/-- `remove_member` route: admin gate (404), self-removal gate (400),
    creator gate (400), then delete the membership row (404 if absent). -/
def remove_member (db : DB) (workspace_id user_id current_user : Nat) :
    Except HTTPError DB :=
  if ¬ is_workspace_admin db current_user workspace_id then
    Except.error ⟨404, "Workspace not found"⟩
  else if user_id == current_user then
    Except.error ⟨400, "Cannot remove yourself from workspace"⟩
  else
    match find_workspace db workspace_id with
    | some workspace =>
      if workspace.created_by == user_id then
        Except.error ⟨400, "Cannot remove workspace creator"⟩
      else
        match db.members.find? fun m =>
            m.workspace_id == workspace_id && m.user_id == user_id with
        | none => Except.error ⟨404, "Member not found"⟩
        | some member =>
          Except.ok { db with members := db.members.erase member }
    | none =>
      match db.members.find? fun m =>
          m.workspace_id == workspace_id && m.user_id == user_id with
      | none => Except.error ⟨404, "Member not found"⟩
      | some member =>
        Except.ok { db with members := db.members.erase member }

/-- `update_member_role` route: role-literal validation (400), then
    `can_modify_member_role` gate (403 Forbidden), then the row update
    (404 if the member row is absent). -/
def update_member_role (db : DB) (workspace_id user_id : Nat)
    (role_data : Option String) (current_user : Nat) :
    Except HTTPError (DB × WorkspaceMember) :=
  match role_data with
  | none => Except.error ⟨400, "Invalid role. Must be admin, editor, or viewer"⟩
  | some new_role =>
    if ¬ (new_role = "admin" ∨ new_role = "editor" ∨ new_role = "viewer") then
      Except.error ⟨400, "Invalid role. Must be admin, editor, or viewer"⟩
    else if ¬ can_modify_member_role db current_user user_id workspace_id
        new_role then
      Except.error ⟨403, "Cannot modify this member's role"⟩
    else
      match db.members.find? fun m =>
          m.workspace_id == workspace_id && m.user_id == user_id with
      | none => Except.error ⟨404, "Member not found"⟩
      | some member =>
        let updated := { member with role := new_role }
        Except.ok
          ({ db with members :=
              db.members.map fun m => if m = member then updated else m },
           updated)

/-! ## Tenant context resolution (src/backend/app/core/workspace_middleware.py)

A caller-supplied workspace id source is `Option (Option Nat)`:
`none` = absent (or falsy), `some none` = present but not parseable as an
int (the handler logs and falls through), `some (some n)` = the id `n`. -/

/-- `WorkspaceIsolationMiddleware._extract_workspace_id`: header, then path
    parameter, then query parameter; `none` when no source yields an id. -/
def extract_workspace_id (header path query : Option (Option Nat)) :
    Option Nat :=
  match header with
  | some (some n) => some n
  | _ =>
    match path with
    | some (some n) => some n
    | _ =>
      match query with
      | some (some n) => some n
      | _ => none

/-- The resolution step of `WorkspaceIsolationMiddleware.dispatch`: an
    explicitly supplied id wins, else the user's `current_workspace_id`,
    else 400 Bad Request. -/
def middleware_resolve_workspace (header path query : Option (Option Nat))
    (current_workspace_id : Option Nat) : Except HTTPError Nat :=
  match extract_workspace_id header path query with
  | some w => Except.ok w
  | none =>
    match current_workspace_id with
    | some w => Except.ok w
    | none => Except.error ⟨400, "No workspace context available"⟩

/-- `WorkspaceContextInjector.get_workspace_id`: `request.state.workspace_id`
    first, else the `X-Workspace-ID` header (a present but non-numeric
    header raises 400 instead of falling through), else the user's
    `current_workspace_id`, else 400. -/
def get_workspace_id (state_workspace_id : Option Nat)
    (header : Option (Option Nat)) (current_workspace_id : Option Nat) :
    Except HTTPError Nat :=
  match state_workspace_id with
  | some w => Except.ok w
  | none =>
    match header with
    | some (some h) => Except.ok h
    | some none => Except.error ⟨400, "Invalid workspace ID in header"⟩
    | none =>
      match current_workspace_id with
      | some d => Except.ok d
      | none =>
        Except.error
          ⟨400, "No workspace context available. Please select a workspace."⟩

/-- The workspace resolution the live workspace-scoped routes (dashboards,
    charts, connections, data sources) actually perform: main.py leaves
    `WorkspaceIsolationMiddleware` disabled, so `request.state.workspace_id`
    is never set and `get_workspace_id` sees only the header and the user's
    default; the request's query (and path) parameters are never consulted. -/
def route_resolve_workspace (header query : Option (Option Nat))
    (current_workspace_id : Option Nat) : Except HTTPError Nat :=
  get_workspace_id none header current_workspace_id

/-- The resolution precedence exactly as the spec words it (claim C8):
    header, else path parameter, else query parameter, else the user's
    stored default workspace; 400 Bad Request exactly when none of the
    four is available.  Stated for comparison with the code's resolvers. -/
def claimed_resolve_workspace (header path query default : Option Nat) :
    Except HTTPError Nat :=
  match header with
  | some n => Except.ok n
  | none =>
    match path with
    | some n => Except.ok n
    | none =>
      match query with
      | some n => Except.ok n
      | none =>
        match default with
        | some n => Except.ok n
        | none => Except.error ⟨400, "No workspace context available"⟩

/-- `WorkspaceIsolationMiddleware._validate_workspace_access`: the user has
    a membership row in the workspace. -/
def validate_workspace_access (db : DB) (user_id workspace_id : Nat) : Bool :=
  (db.members.find? fun m =>
    m.user_id == user_id && m.workspace_id == workspace_id).isSome

/-- The access-check step of `WorkspaceIsolationMiddleware.dispatch`:
    non-members get 404 (not 403), members pass with the resolved id. -/
def middleware_check_access (db : DB) (user_id workspace_id : Nat) :
    Except HTTPError Nat :=
  if validate_workspace_access db user_id workspace_id then
    Except.ok workspace_id
  else Except.error ⟨404, "Resource not found"⟩

/-! ## Invitation protocol (src/backend/app/core/invitations.py)

JWT signing is an opaque external primitive per the spec, so a token is
modelled as its decoded payload; expiry checking follows pyjwt (`exp < now`
is expired).  Python strings are lists of code points; `str.lower()` is
ASCII lowercasing of each code point. -/

/-- A Python string as a list of code points. -/
abbrev PyStr := List Nat

/-- ASCII lowercasing of one code point (`str.lower()` on the relevant
    alphabet). -/
def py_lower_char (c : Nat) : Nat :=
  if 65 ≤ c ∧ c ≤ 90 then c + 32 else c

/-- `email.lower()` -/
def py_lower (s : PyStr) : PyStr := s.map py_lower_char

def INVITATION_TOKEN_EXPIRE_DAYS : Nat := 7

/-- Seconds in one day, to express the 7-day expiry window on a
    seconds-since-epoch clock. -/
def SECONDS_PER_DAY : Nat := 86400

/-- The claim set of an invitation token (module docstring of
    invitations.py): workspace, normalized invitee email, role, inviter,
    issued-at, expiry. -/
structure InvitationPayload where
  workspace_id : Nat
  email : PyStr
  role : String
  invited_by : Nat
  iat : Nat
  exp : Nat
deriving Repr, DecidableEq

/-- `create_invitation_token`: validates the role literal, lowercases the
    email, sets expiry to issue time + 7 days; the signing step is opaque. -/
def create_invitation_token (workspace_id : Nat) (email : PyStr)
    (role : String) (invited_by : Nat) (now : Nat) :
    Except String InvitationPayload :=
  if ¬ (role = "admin" ∨ role = "editor" ∨ role = "viewer") then
    Except.error ("Invalid role: " ++ role)
  else
    Except.ok
      { workspace_id := workspace_id
        email := py_lower email
        role := role
        invited_by := invited_by
        iat := now
        exp := now + INVITATION_TOKEN_EXPIRE_DAYS * SECONDS_PER_DAY }

inductive InvitationDecodeError where
  | expired
  | invalid
deriving Repr, DecidableEq

/-- `decode_invitation_token` on a signature-valid token: pyjwt raises
    ExpiredSignatureError when `exp < now`; type and required fields are
    structurally present. -/
def decode_invitation_token (token : InvitationPayload) (now : Nat) :
    Except InvitationDecodeError InvitationPayload :=
  if token.exp < now then Except.error InvitationDecodeError.expired
  else Except.ok token

/-- `validate_invitation_token`: decode, then case-insensitive email match;
    failures become 400-level HTTP errors. -/
def validate_invitation_token (token : InvitationPayload) (email : PyStr)
    (now : Nat) : Except HTTPError InvitationPayload :=
  match decode_invitation_token token now with
  | Except.error InvitationDecodeError.expired =>
    Except.error ⟨400, "Invitation link has expired"⟩
  | Except.error InvitationDecodeError.invalid =>
    Except.error ⟨400, "Invalid invitation link"⟩
  | Except.ok payload =>
    if py_lower payload.email ≠ py_lower email then
      Except.error ⟨400, "This invitation is for a different email address"⟩
    else Except.ok payload

/-- `check_existing_membership` -/
def check_existing_membership (db : DB) (user_id workspace_id : Nat) : Bool :=
  (db.members.find? fun m =>
    m.user_id == user_id && m.workspace_id == workspace_id).isSome

/-- The success payload of `accept_invitation`. -/
structure AcceptResult where
  workspace_id : Nat
  workspace_name : String
  workspace_slug : String
  role : String
  joined_at : Nat
deriving Repr, DecidableEq

/-- `accept_invitation`: validate the token, reject existing members (400),
    reject a missing workspace (404), then insert the membership row with
    the encoded role and inviter. -/
def accept_invitation (db : DB) (token : InvitationPayload)
    (user_id : Nat) (email : PyStr) (now : Nat) :
    Except HTTPError (DB × AcceptResult) :=
  match validate_invitation_token token email now with
  | Except.error e => Except.error e
  | Except.ok payload =>
    if check_existing_membership db user_id payload.workspace_id then
      Except.error ⟨400, "You are already a member of this workspace"⟩
    else
      match find_workspace db payload.workspace_id with
      | none => Except.error ⟨404, "Workspace not found"⟩
      | some workspace =>
        let member : WorkspaceMember :=
          { workspace_id := payload.workspace_id
            user_id := user_id
            role := payload.role
            invited_by := payload.invited_by
            joined_at := now }
        Except.ok
          ({ db with members := db.members ++ [member] },
           { workspace_id := payload.workspace_id
             workspace_name := workspace.name
             workspace_slug := workspace.slug
             role := payload.role
             joined_at := now })

/-! ## Data-Isolation Guard (src/backend/app/core/data_isolation.py) -/

def WORKSPACE_SCOPED_MODELS : List String :=
  ["Dashboard", "Chart", "Connection", "Log", "CSVData"]

structure WorkspaceIsolationError where
  message : String
deriving Repr, DecidableEq

/-- `validate_workspace_id_on_insert`: for a workspace-scoped model, reject
    the insert when the `workspace_id` attribute is absent or `None`
    (both modelled as `none`). -/
def validate_workspace_id_on_insert (model_name : String)
    (workspace_id : Option Nat) : Except WorkspaceIsolationError Unit :=
  if model_name ∈ WORKSPACE_SCOPED_MODELS then
    match workspace_id with
    | none =>
      Except.error ⟨"SECURITY VIOLATION: Attempted to insert " ++ model_name
        ++ " without workspace_id."⟩
    | some _ => Except.ok ()
  else Except.ok ()

/-- `validate_workspace_id_on_update`: for a workspace-scoped model whose
    `workspace_id` attribute changed (`history.has_changes()`), reject when
    the previously committed value is known (`some`) and differs from the
    new value; `committed = none` covers both a NULL prior value and an
    undeterminable history. -/
def validate_workspace_id_on_update (model_name : String)
    (committed new : Option Nat) : Except WorkspaceIsolationError Unit :=
  if model_name ∈ WORKSPACE_SCOPED_MODELS then
    if committed ≠ new then
      match committed with
      | some old_id =>
        if new ≠ some old_id then
          Except.error ⟨"SECURITY VIOLATION: Attempted to change workspace_id for "
            ++ model_name⟩
        else Except.ok ()
      | none => Except.ok ()
    else Except.ok ()
  else Except.ok ()

/-! ## Helper lemmas -/

lemma py_lower_char_idem (c : Nat) :
    py_lower_char (py_lower_char c) = py_lower_char c := by
  unfold py_lower_char
  split_ifs <;> omega

lemma py_lower_idem (s : PyStr) : py_lower (py_lower s) = py_lower s := by
  induction s with
  | nil => rfl
  | cons c cs ih =>
    simp only [py_lower, List.map_cons] at *
    rw [py_lower_char_idem]
    simpa using ih

/-! ## Claim theorems -/

/-- Claim C1: for every workspace-scoped model, the Data-Isolation Guard
    accepts an insert exactly when `workspace_id` is present (rejecting
    absent/null), and accepts an update of an entity with committed tenant
    id `o` exactly when the new value is still `o` — the tenant id is
    write-once. -/
theorem c1_workspace_id_write_once (model : String)
    (h : model ∈ WORKSPACE_SCOPED_MODELS) :
    (∀ wid : Option Nat,
      validate_workspace_id_on_insert model wid = Except.ok () ↔ wid ≠ none) ∧
    (∀ (o : Nat) (nw : Option Nat),
      validate_workspace_id_on_update model (some o) nw = Except.ok () ↔
        nw = some o) := by
  constructor
  · intro wid
    unfold validate_workspace_id_on_insert
    rw [if_pos h]
    cases wid <;> simp
  · intro o nw
    unfold validate_workspace_id_on_update
    rw [if_pos h]
    by_cases hno : nw = some o
    · simp [hno]
    · have hne : (some o : Option Nat) ≠ nw := fun hh => hno hh.symm
      simp [hne, hno]

theorem c1_workspace_id_write_once_witness :
    "Dashboard" ∈ WORKSPACE_SCOPED_MODELS ∧
    (validate_workspace_id_on_update "Dashboard" (some 1) (some 2) =
        Except.ok () ↔ (some 2 : Option Nat) = some 1) :=
  ⟨by decide,
   (c1_workspace_id_write_once "Dashboard" (by decide)).2 1 (some 2)⟩

/-- Claim C3: `can_modify_member_role` grants exactly when the actor is not
    the target, the actor is a workspace admin, and the new role's level
    does not exceed the actor's role level; each of the three claimed
    denial conditions forces a `false` result. -/
theorem c3_can_modify_member_role_characterization (db : DB)
    (actor target workspace_id : Nat) (new_role : String) :
    can_modify_member_role db actor target workspace_id new_role = true ↔
      actor ≠ target ∧
      is_workspace_admin db actor workspace_id = true ∧
      ROLE_HIERARCHY new_role ≤
        role_level_opt (get_user_role db actor workspace_id) := by
  unfold can_modify_member_role
  by_cases hat : actor = target
  · simp [hat]
  · simp only [hat, beq_iff_eq, if_false, ne_eq, not_false_iff, true_and]
    by_cases hadm : is_workspace_admin db actor workspace_id = true
    · simp only [hadm, not_true, if_false, true_and]
      split_ifs with hlt
      · simp
        omega
      · simp
        omega
    · simp [hadm]

/-- Claim C8 counterexample: for a request with no workspace header, a
    query parameter naming workspace 5, and a stored default workspace 3,
    the live route-level resolution scopes the operation to workspace 3,
    while the claimed precedence (query before stored default) yields 5. -/
theorem c8_counterexample_query_parameter_ignored :
    route_resolve_workspace none (some (some 5)) (some 3) = Except.ok 3 ∧
    claimed_resolve_workspace none none (some 5) (some 3) = Except.ok 5 ∧
    (3 : Nat) ≠ 5 :=
  ⟨rfl, rfl, by decide⟩

/-- Claim C8 (amended): the disabled `WorkspaceIsolationMiddleware` resolves
    with the claimed precedence header > path > query > stored default and
    fails 400 exactly when all four are absent; the resolver the live
    routes actually call resolves header > stored default, ignoring path
    and query parameters, failing 400 when neither is available and also
    when the header is present but non-numeric. -/
theorem c8_resolution_precedence_amended :
    (∀ h p q d : Option Nat,
      middleware_resolve_workspace (h.map some) (p.map some) (q.map some) d
        = claimed_resolve_workspace h p q d) ∧
    (∀ h p q d : Option Nat,
      middleware_resolve_workspace (h.map some) (p.map some) (q.map some) d
          = Except.error ⟨400, "No workspace context available"⟩ ↔
        h = none ∧ p = none ∧ q = none ∧ d = none) ∧
    (∀ (h d : Option Nat) (q : Option (Option Nat)),
      route_resolve_workspace (h.map some) q d =
        match h with
        | some n => Except.ok n
        | none =>
          match d with
          | some n => Except.ok n
          | none =>
            Except.error ⟨400,
              "No workspace context available. Please select a workspace."⟩) ∧
    (∀ (q : Option (Option Nat)) (d : Option Nat),
      route_resolve_workspace (some none) q d =
        Except.error ⟨400, "Invalid workspace ID in header"⟩) := by
  refine ⟨?_, ?_, ?_, ?_⟩
  · intro h p q d
    cases h <;> cases p <;> cases q <;> cases d <;>
      simp [middleware_resolve_workspace, extract_workspace_id,
        claimed_resolve_workspace]
  · intro h p q d
    cases h <;> cases p <;> cases q <;> cases d <;>
      simp [middleware_resolve_workspace, extract_workspace_id]
  · intro h d q
    cases h <;> cases d <;>
      simp [route_resolve_workspace, get_workspace_id]
  · intro q d
    rfl

/-- Claim C9: removal of the workspace creator is rejected with an error
    for every acting user; since no updated database is returned, the
    membership set is unchanged. -/
theorem c9_creator_irremovable (db : DB) (w : Workspace) (actor : Nat)
    (hws : find_workspace db w.id = some w) :
    ∃ e : HTTPError,
      remove_member db w.id w.created_by actor = Except.error e := by
  unfold remove_member
  by_cases hadm : is_workspace_admin db actor w.id = true
  · by_cases hself : w.created_by = actor
    · simp [hadm, hself]
    · simp [hadm, hself, hws]
  · simp [hadm]

theorem c9_creator_irremovable_witness :
    ∃ e : HTTPError,
      remove_member
        ⟨[⟨1, "W", "w", 7⟩], [⟨1, 5, "admin", 5, 0⟩], [], []⟩ 1 7 5 =
        Except.error e :=
  c9_creator_irremovable ⟨[⟨1, "W", "w", 7⟩], [⟨1, 5, "admin", 5, 0⟩], [], []⟩
    ⟨1, "W", "w", 7⟩ 5 rfl

/-- Claim C10 (implicit): with a required-role literal outside
    {admin, editor, viewer}, `check_permission` returns true for every
    workspace member regardless of held role, and false only for
    non-members. -/
theorem c10_unknown_required_role_grants_members (db : DB) (u w : Nat)
    (required_role : String)
    (hreq : ¬ (required_role = "admin" ∨ required_role = "editor" ∨
      required_role = "viewer")) :
    (∀ held, get_user_role db u w = some held →
      check_permission db u w required_role = true) ∧
    (get_user_role db u w = none →
      check_permission db u w required_role = false) := by
  push_neg at hreq
  obtain ⟨h1, h2, h3⟩ := hreq
  have hzero : ROLE_HIERARCHY required_role = 0 := by
    unfold ROLE_HIERARCHY
    simp [h1, h2, h3]
  constructor
  · intro held hheld
    unfold check_permission
    rw [hheld, hzero]
    simp
  · intro hnone
    unfold check_permission
    rw [hnone]

theorem c10_unknown_required_role_grants_members_witness :
    check_permission ⟨[], [⟨1, 2, "viewer", 2, 0⟩], [], []⟩ 2 1 "edtor" =
      true :=
  (c10_unknown_required_role_grants_members
    ⟨[], [⟨1, 2, "viewer", 2, 0⟩], [], []⟩ 2 1 "edtor" (by decide)).1
    "viewer" rfl

/-- Claim C2: with a required role from {admin, editor, viewer} and at most
    one membership row per (workspace, user), `check_permission` succeeds
    exactly when a membership row for (w, u) exists whose held level is at
    least the required level; non-members are always denied; and permission
    is monotone in the held role's level. -/
theorem c2_check_permission_characterization (db : DB) (u w : Nat)
    (req : String)
    (_hreq : req = "admin" ∨ req = "editor" ∨ req = "viewer")
    (huniq : ∀ m1 ∈ db.members, ∀ m2 ∈ db.members,
      m1.user_id = m2.user_id → m1.workspace_id = m2.workspace_id →
        m1 = m2) :
    (check_permission db u w req = true ↔
      ∃ m ∈ db.members, m.workspace_id = w ∧ m.user_id = u ∧
        ROLE_HIERARCHY req ≤ ROLE_HIERARCHY m.role) ∧
    (get_user_role db u w = none → check_permission db u w req = false) ∧
    (∀ (db2 : DB) (h1 h2 : String),
      get_user_role db u w = some h1 → get_user_role db2 u w = some h2 →
      ROLE_HIERARCHY h1 ≤ ROLE_HIERARCHY h2 →
      check_permission db u w req = true →
      check_permission db2 u w req = true) := by
  refine ⟨?_, ?_, ?_⟩
  · unfold check_permission get_user_role
    cases hf : db.members.find? fun m =>
        m.user_id == u && m.workspace_id == w with
    | none =>
      simp only [Option.map_none']
      constructor
      · intro hc
        exact absurd hc (by simp)
      · rintro ⟨m, hm, hw, hu, hlev⟩
        rw [List.find?_eq_none] at hf
        exact absurd (by simp [hu, hw]) (hf m hm)
    | some m =>
      have hpred := List.find?_some hf
      have hmem := List.mem_of_find?_eq_some hf
      simp only [Bool.and_eq_true, beq_iff_eq] at hpred
      obtain ⟨hu, hw⟩ := hpred
      simp only [Option.map_some']
      constructor
      · intro hc
        simp only [decide_eq_true_eq] at hc
        exact ⟨m, hmem, hw, hu, hc⟩
      · rintro ⟨m', hm', hw', hu', hlev⟩
        have heq : m' = m :=
          huniq m' hm' m hmem (by rw [hu', hu]) (by rw [hw', hw])
        subst heq
        simp only [decide_eq_true_eq]
        exact hlev
  · intro hnone
    unfold check_permission
    rw [hnone]
  · intro db2 h1 h2 hg1 hg2 hle hc
    unfold check_permission at hc ⊢
    rw [hg1] at hc
    rw [hg2]
    simp only [decide_eq_true_eq] at hc ⊢
    omega

theorem c2_check_permission_characterization_witness :
    check_permission ⟨[], [⟨1, 2, "editor", 2, 0⟩], [], []⟩ 2 1 "viewer" =
        true ↔
      ∃ m ∈ [(⟨1, 2, "editor", 2, 0⟩ : WorkspaceMember)],
        m.workspace_id = 1 ∧ m.user_id = 2 ∧
          ROLE_HIERARCHY "viewer" ≤ ROLE_HIERARCHY m.role :=
  (c2_check_permission_characterization
    ⟨[], [⟨1, 2, "editor", 2, 0⟩], [], []⟩ 2 1 "viewer"
    (Or.inr (Or.inr rfl)) (by decide)).1

/-- Claim C4: for an existing connection, `check_connection_access` grants
    exactly when the user created the connection, is an admin of its
    workspace, or holds an explicit ConnectionPermission row at the
    required level or higher; with none of the three, access is denied. -/
theorem c4_check_connection_access_characterization (db : DB) (u c : Nat)
    (req : String) (conn : Connection)
    (hc : find_connection db c = some conn)
    (huniq : ∀ p1 ∈ db.connection_permissions,
      ∀ p2 ∈ db.connection_permissions,
      p1.connection_id = p2.connection_id → p1.user_id = p2.user_id →
        p1 = p2) :
    (check_connection_access db u c req = true ↔
      conn.created_by = u ∨
      get_user_role db u conn.workspace_id = some "admin" ∨
      ∃ p ∈ db.connection_permissions, p.connection_id = c ∧
        p.user_id = u ∧
        permission_hierarchy req ≤ permission_hierarchy p.permission_level) ∧
    (conn.created_by ≠ u →
      get_user_role db u conn.workspace_id ≠ some "admin" →
      get_user_connection_permission db u c = none →
      check_connection_access db u c req = false) := by
  constructor
  · unfold check_connection_access
    rw [hc]
    by_cases hcr : conn.created_by = u
    · simp [hcr]
    · by_cases hadm : get_user_role db u conn.workspace_id = some "admin"
      · simp [hcr, hadm]
      · simp only [hcr, hadm, beq_iff_eq, if_false, false_or]
        unfold get_user_connection_permission
        cases hf : db.connection_permissions.find? fun p =>
            p.connection_id == c && p.user_id == u with
        | none =>
          simp only [Option.map_none']
          constructor
          · intro hfalse
            exact absurd hfalse (by simp)
          · rintro ⟨p, hp, hcid, huid, hlev⟩
            rw [List.find?_eq_none] at hf
            exact absurd (by simp [hcid, huid]) (hf p hp)
        | some p =>
          have hpred := List.find?_some hf
          have hmem := List.mem_of_find?_eq_some hf
          simp only [Bool.and_eq_true, beq_iff_eq] at hpred
          obtain ⟨hcid, huid⟩ := hpred
          simp only [Option.map_some']
          constructor
          · intro hlev
            simp only [decide_eq_true_eq] at hlev
            exact ⟨p, hmem, hcid, huid, hlev⟩
          · rintro ⟨p', hp', hcid', huid', hlev⟩
            have heq : p' = p :=
              huniq p' hp' p hmem (by rw [hcid', hcid]) (by rw [huid', huid])
            subst heq
            simp only [decide_eq_true_eq]
            exact hlev
  · intro hcr hadm hnoperm
    unfold check_connection_access
    rw [hc]
    have hcr' : ¬ (conn.created_by = u) := hcr
    simp only [hcr', hadm, beq_iff_eq, if_false]
    rw [hnoperm]

theorem c4_check_connection_access_characterization_witness :
    check_connection_access
        ⟨[], [⟨1, 3, "viewer", 3, 0⟩], [⟨1, 1, 9⟩],
          [⟨1, 3, "editor", 9⟩]⟩ 3 1 "viewer" = true ↔
      (9 : Nat) = 3 ∨
      get_user_role
        ⟨[], [⟨1, 3, "viewer", 3, 0⟩], [⟨1, 1, 9⟩],
          [⟨1, 3, "editor", 9⟩]⟩ 3 1 = some "admin" ∨
      ∃ p ∈ [(⟨1, 3, "editor", 9⟩ : ConnectionPermission)],
        p.connection_id = 1 ∧ p.user_id = 3 ∧
        permission_hierarchy "viewer" ≤
          permission_hierarchy p.permission_level :=
  (c4_check_connection_access_characterization
    ⟨[], [⟨1, 3, "viewer", 3, 0⟩], [⟨1, 1, 9⟩], [⟨1, 3, "editor", 9⟩]⟩
    3 1 "viewer" ⟨1, 1, 9⟩ rfl (by decide)).1

/-- Claim C5: for an existing connection,
    `can_manage_connection_permissions` grants exactly to the creator, a
    workspace admin, or the holder of an explicit grant whose level is
    exactly `owner`; a user whose only access is an explicit non-owner
    grant can never manage the connection's permissions. -/
theorem c5_can_manage_connection_permissions_characterization (db : DB)
    (u c : Nat) (conn : Connection)
    (hc : find_connection db c = some conn)
    (huniq : ∀ p1 ∈ db.connection_permissions,
      ∀ p2 ∈ db.connection_permissions,
      p1.connection_id = p2.connection_id → p1.user_id = p2.user_id →
        p1 = p2) :
    (can_manage_connection_permissions db u c = true ↔
      conn.created_by = u ∨
      get_user_role db u conn.workspace_id = some "admin" ∨
      ∃ p ∈ db.connection_permissions, p.connection_id = c ∧
        p.user_id = u ∧ p.permission_level = "owner") ∧
    (∀ lvl, get_user_connection_permission db u c = some lvl →
      lvl ≠ "owner" → conn.created_by ≠ u →
      get_user_role db u conn.workspace_id ≠ some "admin" →
      can_manage_connection_permissions db u c = false) := by
  constructor
  · unfold can_manage_connection_permissions
    rw [hc]
    by_cases hcr : conn.created_by = u
    · simp [hcr]
    · by_cases hadm : get_user_role db u conn.workspace_id = some "admin"
      · simp [hcr, hadm]
      · simp only [hcr, hadm, beq_iff_eq, if_false, false_or]
        unfold get_user_connection_permission
        cases hf : db.connection_permissions.find? fun p =>
            p.connection_id == c && p.user_id == u with
        | none =>
          simp only [Option.map_none']
          constructor
          · intro hfalse
            exact absurd hfalse (by simp)
          · rintro ⟨p, hp, hcid, huid, hown⟩
            rw [List.find?_eq_none] at hf
            exact absurd (by simp [hcid, huid]) (hf p hp)
        | some p =>
          have hpred := List.find?_some hf
          have hmem := List.mem_of_find?_eq_some hf
          simp only [Bool.and_eq_true, beq_iff_eq] at hpred
          obtain ⟨hcid, huid⟩ := hpred
          simp only [Option.map_some']
          constructor
          · intro hown
            split_ifs at hown with howner
            simp only [beq_iff_eq, Option.some_inj] at howner
            exact ⟨p, hmem, hcid, huid, howner⟩
          · rintro ⟨p', hp', hcid', huid', hown⟩
            have heq : p' = p :=
              huniq p' hp' p hmem (by rw [hcid', hcid]) (by rw [huid', huid])
            subst heq
            simp [hown]
  · intro lvl hlvl hnotowner hcr hadm
    unfold can_manage_connection_permissions
    rw [hc]
    have hcr' : ¬ (conn.created_by = u) := hcr
    have : ¬ (get_user_connection_permission db u c = some "owner") := by
      rw [hlvl]
      simp [hnotowner]
    simp only [hcr', hadm, beq_iff_eq, if_false, Option.some_inj]
    simp [this, hlvl, hnotowner]

theorem c5_can_manage_connection_permissions_characterization_witness :
    can_manage_connection_permissions
        ⟨[], [⟨1, 3, "editor", 3, 0⟩], [⟨1, 1, 9⟩],
          [⟨1, 3, "editor", 9⟩]⟩ 3 1 = false :=
  (c5_can_manage_connection_permissions_characterization
    ⟨[], [⟨1, 3, "editor", 3, 0⟩], [⟨1, 1, 9⟩], [⟨1, 3, "editor", 9⟩]⟩
    3 1 ⟨1, 1, 9⟩ rfl (by decide)).2 "editor" rfl (by decide) (by decide)
    (by decide)

/-- A small concrete database: workspace 1 created by user 1, with user 1
    admin, user 2 editor, user 3 viewer, and one connection created by
    user 1 carrying no explicit permission rows. -/
def sampleDB : DB :=
  { workspaces := [⟨1, "W", "w", 1⟩]
    members := [⟨1, 1, "admin", 1, 0⟩, ⟨1, 2, "editor", 1, 0⟩,
      ⟨1, 3, "viewer", 1, 0⟩]
    connections := [⟨1, 1, 1⟩]
    connection_permissions := [] }

/-- Claim C6 counterexample: an editor (user 2) denied the member-role
    modification, and the same editor denied by the connection permission
    checker, both receive HTTP 403 Forbidden — a distinct forbidden signal,
    not the claimed uniform 404. -/
theorem c6_counterexample_forbidden_not_404 :
    update_member_role sampleDB 1 3 (some "viewer") 2 =
      Except.error ⟨403, "Cannot modify this member's role"⟩ ∧
    connection_permission_checker_call sampleDB 1 2 "viewer" =
      Except.error ⟨403, "Insufficient permissions. Required: viewer"⟩ ∧
    (403 : Nat) ≠ 404 :=
  ⟨rfl, rfl, by decide⟩

/-- Claim C6 (amended): denials from the workspace permission dependency,
    `require_role`, the isolation middleware and the admin gate of member
    removal all surface as 404; but the member-role modification endpoint
    maps a `can_modify_member_role` denial to 403 Forbidden, and
    `ConnectionPermissionChecker` maps an insufficient connection
    permission to 403 Forbidden. -/
theorem c6_amended_denial_status_codes :
    (∀ (db : DB) (u w : Nat) (r : String),
      check_permission db u w r = false →
      permission_checker_call db (some u) (some w) r =
        Except.error ⟨404, "Resource not found"⟩) ∧
    (∀ (db : DB) (u w : Nat) (r : String) (e : HTTPError),
      require_role db u w r = Except.error e → e.status = 404) ∧
    (∀ (db : DB) (u w : Nat),
      validate_workspace_access db u w = false →
      middleware_check_access db u w =
        Except.error ⟨404, "Resource not found"⟩) ∧
    (∀ (db : DB) (w t cu : Nat),
      is_workspace_admin db cu w = false →
      remove_member db w t cu = Except.error ⟨404, "Workspace not found"⟩) ∧
    (∀ (db : DB) (w t cu : Nat) (role : String),
      (role = "admin" ∨ role = "editor" ∨ role = "viewer") →
      can_modify_member_role db cu t w role = false →
      update_member_role db w t (some role) cu =
        Except.error ⟨403, "Cannot modify this member's role"⟩) ∧
    (∀ (db : DB) (c u : Nat) (r : String),
      check_connection_access db u c r = false →
      connection_permission_checker_call db c u r =
        Except.error ⟨403, "Insufficient permissions. Required: " ++ r⟩) := by
  refine ⟨?_, ?_, ?_, ?_, ?_, ?_⟩
  · intro db u w r h
    unfold permission_checker_call
    simp [h]
  · intro db u w r e h
    unfold require_role at h
    split at h
    · injection h with h'
      rw [← h']
    · split at h
      · injection h with h'
        rw [← h']
      · exact absurd h (by simp)
  · intro db u w h
    unfold middleware_check_access
    simp [h]
  · intro db w t cu h
    unfold remove_member
    simp [h]
  · intro db w t cu role hvalid hcm
    simp only [update_member_role]
    rw [if_neg (not_not_intro hvalid), if_pos (by simp [hcm])]
  · intro db c u r h
    unfold connection_permission_checker_call
    simp [h]

theorem c6_amended_denial_status_codes_witness :
    permission_checker_call sampleDB (some 4) (some 1) "viewer" =
      Except.error ⟨404, "Resource not found"⟩ ∧
    (HTTPError.mk 404 "Resource not found").status = 404 ∧
    middleware_check_access sampleDB 4 1 =
      Except.error ⟨404, "Resource not found"⟩ ∧
    remove_member sampleDB 1 3 2 =
      Except.error ⟨404, "Workspace not found"⟩ ∧
    update_member_role sampleDB 1 3 (some "editor") 2 =
      Except.error ⟨403, "Cannot modify this member's role"⟩ ∧
    connection_permission_checker_call sampleDB 1 3 "viewer" =
      Except.error ⟨403, "Insufficient permissions. Required: viewer"⟩ :=
  ⟨c6_amended_denial_status_codes.1 sampleDB 4 1 "viewer" rfl,
   c6_amended_denial_status_codes.2.1 sampleDB 4 1 "viewer"
     ⟨404, "Resource not found"⟩ rfl,
   c6_amended_denial_status_codes.2.2.1 sampleDB 4 1 rfl,
   c6_amended_denial_status_codes.2.2.2.1 sampleDB 1 3 2 rfl,
   c6_amended_denial_status_codes.2.2.2.2.1 sampleDB 1 3 2 "editor"
     (Or.inr (Or.inl rfl)) rfl,
   c6_amended_denial_status_codes.2.2.2.2.2 sampleDB 1 3 "viewer" rfl⟩

/-- Claim C7: accepting, within 7 days of issue, the token produced by
    `create_invitation_token` for an existing workspace, with a
    case-insensitively matching email and no prior membership, succeeds and
    creates exactly one membership for (W, u), carrying exactly the encoded
    role and the encoded inviter. -/
theorem c7_invitation_round_trip (db : DB) (W : Workspace)
    (emailInv emailU : PyStr) (role : String) (inviter u : Nat)
    (t_issue t_accept : Nat)
    (hrole : role = "admin" ∨ role = "editor" ∨ role = "viewer")
    (hws : find_workspace db W.id = some W)
    (hemail : py_lower emailInv = py_lower emailU)
    (hmem : check_existing_membership db u W.id = false)
    (hwithin : t_accept ≤
      t_issue + INVITATION_TOKEN_EXPIRE_DAYS * SECONDS_PER_DAY) :
    ∃ (tok : InvitationPayload) (db' : DB) (res : AcceptResult),
      create_invitation_token W.id emailInv role inviter t_issue =
        Except.ok tok ∧
      accept_invitation db tok u emailU t_accept =
        Except.ok (db', res) ∧
      db'.members.filter
          (fun m => m.workspace_id == W.id && m.user_id == u) =
        [⟨W.id, u, role, inviter, t_accept⟩] ∧
      res.role = role ∧ res.workspace_id = W.id := by
  refine ⟨⟨W.id, py_lower emailInv, role, inviter, t_issue,
    t_issue + INVITATION_TOKEN_EXPIRE_DAYS * SECONDS_PER_DAY⟩,
    { db with members := db.members ++
        [⟨W.id, u, role, inviter, t_accept⟩] },
    ⟨W.id, W.name, W.slug, role, t_accept⟩, ?_, ?_, ?_, rfl, rfl⟩
  · unfold create_invitation_token
    rw [if_neg (not_not_intro hrole)]
  · have hlow : py_lower (py_lower emailInv) = py_lower emailU := by
      rw [py_lower_idem, hemail]
    have hexp : ¬ (t_issue + INVITATION_TOKEN_EXPIRE_DAYS * SECONDS_PER_DAY
        < t_accept) := by omega
    simp [accept_invitation, validate_invitation_token,
      decode_invitation_token, hexp, hlow, hmem, hws]
  · simp only [List.filter_append]
    have hnil : db.members.filter
        (fun m => m.workspace_id == W.id && m.user_id == u) = [] := by
      rw [List.filter_eq_nil_iff]
      intro m hm
      unfold check_existing_membership at hmem
      have hnone : List.find?
          (fun m => m.user_id == u && m.workspace_id == W.id) db.members =
          none := Option.not_isSome_iff_eq_none.mp (by simp [hmem])
      rw [List.find?_eq_none] at hnone
      have := hnone m hm
      simp only [Bool.and_eq_true, beq_iff_eq] at this ⊢
      tauto
    rw [hnil]
    simp

theorem c7_invitation_round_trip_witness :
    ∃ (tok : InvitationPayload) (db' : DB) (res : AcceptResult),
      create_invitation_token 1 [65] "editor" 9 0 = Except.ok tok ∧
      accept_invitation ⟨[⟨1, "W", "w", 9⟩], [], [], []⟩ tok 2 [97]
          604800 = Except.ok (db', res) ∧
      db'.members.filter (fun m => m.workspace_id == 1 && m.user_id == 2) =
        [⟨1, 2, "editor", 9, 604800⟩] ∧
      res.role = "editor" ∧ res.workspace_id = 1 :=
  c7_invitation_round_trip ⟨[⟨1, "W", "w", 9⟩], [], [], []⟩
    ⟨1, "W", "w", 9⟩ [65] [97] "editor" 9 2 0 604800
    (Or.inr (Or.inl rfl)) rfl (by decide) rfl (by decide)

end VizDashboard
